import Mathlib

/-!
Verification of the NDJSON streaming core of the Practical-13 repository
(`src/Practical-13.js`).  The subsystem under study is:

* `delay(ms, signal)` (lines 160-168): an abortable sleep.  It synchronously
  throws a plain `Error` with message aborted when called with an already-aborted
  signal, and rejects with an error whose name field is AbortError when the
  signal aborts while the timer is pending.
* `produceNdjsonItems(count, intervalMs, signal)` (lines 170-178): an async
  generator producing items with fields seq = i + 1, id, ts and msg for `i` from `0` to
  `count - 1`, checking `signal.aborted` before and after each delay.
* the `GET /stream` handler (lines 180-232): consumes the generator,
  serializes each item, writes it with `res.write`, waits for `drain` or
  `close` when the write returns `false`, and classifies exceptions in its
  catch block (an AbortError means silent termination; anything else is a
  fault, logged and answered with a problem document via `res.end`).
* `endStream` (lines 186-191): idempotent closure of the response.
* the abort-on-close middleware (lines 71-84): binds the transport `close`
  event to `AbortController.abort()`.

The session has exactly two suspension points at which external events
(client disconnect, buffer drain, transport close) can interleave with the
loop: the inter-item delay and the backpressure wait.  Everything between
two suspension points runs synchronously on the event loop, so the session
is modelled as a deterministic interpreter `streamLoop` driven by an
environment `Env` that decides, per item, whether the client closes during
the delay, whether serialization faults, whether `res.write` reports
saturation, and whether a saturated write is resolved by `drain` (resumed)
or by `close` (abandoned, which also aborts the signal through the
middleware binding).
-/

namespace Practical13

/-- Outcome of one invocation of `delay` (src/Practical-13.js lines 160-168):
`preAbortError` is the synchronous plain-Error throw (message aborted) taken when the
signal is aborted at call time (its name field is Error, not AbortError);
`abortError` is the rejection produced by the abort listener while the timer
is pending (its name field is AbortError); `completed` is normal timer
expiry. -/
inductive DelayResult
  | preAbortError
  | abortError
  | completed
deriving DecidableEq, Repr

/-- Model of `delay(ms, signal)` (src/Practical-13.js lines 160-168).
`abortedAtCall` is `signal.aborted` at the moment of the call;
`abortDuringWait` says whether the signal aborts while the timer is
pending.  The duration `ms` has no influence on the control flow. -/
def delay (ms : Nat) (abortedAtCall : Bool) (abortDuringWait : Bool) : DelayResult :=
  if abortedAtCall then DelayResult.preAbortError
  else if abortDuringWait then DelayResult.abortError
  else DelayResult.completed

/-- Environment of one `/stream` session: the external events that can occur
at the two suspension points.  `closeDuringDelay i` says whether the client
connection closes (hence the middleware aborts the signal) while the delay
preceding item `i + 1` is pending.  `serializeFault s` says whether building
or `JSON.stringify`-ing the item with `seq = s` throws.  `writeOk s` is the
boolean returned by `res.write` for item `s`.  `drainFirst s` says whether a
saturated write of item `s` is resolved by the `drain` event (`true`,
resumed) or by the `close` event (`false`, abandoned — in which case the
middleware of lines 71-84 has also aborted the signal). -/
structure Env where
  closeDuringDelay : Nat → Bool
  serializeFault : Nat → Bool
  writeOk : Nat → Bool
  drainFirst : Nat → Bool

/-- Observable events of a session, in order of occurrence.
`delayCall i abortedAtCall` records an invocation of `delay` from the
generator loop together with the value of `signal.aborted` at call time.
`delayAborted i` records the `AbortError` rejection of the delay preceding
item `i + 1`.  `writeCall s ok` records `res.write` of the line for item `s`
returning `ok`.  `waitResolved s resumed` records the backpressure wait for
item `s` resolving via `drain` (`true`) or via `close` (`false`).
`endStreamRun` records `endStream` executing `res.end()`; `faultEnd` records
the `res.end(JSON.stringify(problem))` of the catch block. -/
inductive Ev
  | delayCall (i : Nat) (abortedAtCall : Bool)
  | delayAborted (i : Nat)
  | writeCall (seq : Nat) (ok : Bool)
  | waitResolved (seq : Nat) (resumed : Bool)
  | endStreamRun
  | faultEnd
deriving DecidableEq, Repr

/-- Which exit path of the `/stream` handler ended the session:
`exhausted` — the generator ran through all `count` items and the loop at
line 217 called `endStream` (spec state COMPLETED); `abortBreak` — the
generator observed `signal.aborted` at line 172 and broke, the loop ended
and line 217 called `endStream` (spec state CANCELLED); `abortError` — the
catch block at lines 219-222 swallowed an `AbortError` and called
`endStream` (spec state CANCELLED); `fault` — the catch block at lines
224-229 handled a genuine error (spec state FAILED). -/
inductive ExitKind
  | exhausted
  | abortBreak
  | abortError
  | fault
deriving DecidableEq, Repr

/-- Content type actually carried by the response headers on the wire:
`ndjson` is the `application/x-ndjson` set at line 181, `problemJson` is the
`application/problem+json` substituted at line 225 when no bytes were sent
yet. -/
inductive CType
  | ndjson
  | problemJson
deriving DecidableEq, Repr

/-- Observable result of one `/stream` session.  `written` is the list of
`seq` values of the record lines actually written to the transport, in
order.  `events` is the full event trace.  `ended` is the `ended` flag of
`endStream`; `endStreamCalls` counts invocations of `endStream`;
`resEndCount` counts executions of `res.end`.  `errorDoc` is `some status`
when the catch block wrote a problem document onto the wire (the code always
builds it with status 500), `none` otherwise.  `wireStatus` is the HTTP
status actually transmitted in the response head, and `wireCType` the
transmitted content type. -/
structure RunResult where
  written : List Nat
  events : List Ev
  exit : ExitKind
  ended : Bool
  endStreamCalls : Nat
  resEndCount : Nat
  errorDoc : Option Nat
  wireStatus : Nat
  wireCType : CType
deriving DecidableEq, Repr

/-- Exit through the for-await loop ending followed by `endStream()`
(line 217), or through the `AbortError` branch of the catch block
(lines 219-222), which logs and calls `endStream()`.  `endStream`
(lines 186-191) finds `ended = false` here, sets it and runs `res.end()`
once.  No problem document is written and the response head is the one set
at lines 181-183 (status 200, ndjson). -/
def loopExit (k : ExitKind) (evs : List Ev) : RunResult :=
  { written := []
    events := evs ++ [Ev.endStreamRun]
    exit := k
    ended := true
    endStreamCalls := 1
    resEndCount := 1
    errorDoc := none
    wireStatus := 200
    wireCType := CType.ndjson }

/-- Exit through the generic branch of the catch block (lines 224-229): the
error is logged; if `res.headersSent` is false the content type is replaced
by `application/problem+json` (line 225); since `res.writableEnded` is false
at this point, `res.statusCode` is set to 500 and
res.end with the JSON rendering of buildProblem at status 500 writes the
problem document and closes the response (line 228).  The status line on the
wire is 500 only when the headers had not been flushed before the fault;
`endStream` is never invoked on this path. -/
def faultExit (hs : Bool) (evs : List Ev) : RunResult :=
  { written := []
    events := evs ++ [Ev.faultEnd]
    exit := ExitKind.fault
    ended := false
    endStreamCalls := 0
    resEndCount := 1
    errorDoc := some 500
    wireStatus := if hs then 200 else 500
    wireCType := if hs then CType.ndjson else CType.problemJson }

/-- Prefixes the written lines and the event trace of the remainder of a
session with the lines and events produced by the current iteration. -/
def prepend (w0 : List Nat) (e0 : List Ev) (res : RunResult) : RunResult :=
  { res with written := w0 ++ res.written, events := e0 ++ res.events }

/-- Interpreter of one `/stream` session, fusing `produceNdjsonItems`
(src/Practical-13.js lines 170-178) with the consumer loop of the handler
(lines 199-231); the coroutine interleaving of the async generator and the
for-await loop is deterministic, so the fusion is behaviour-preserving.
Arguments: remaining fuel `count - i`, current generator index `i`, current
`signal.aborted` value `a`, and `res.headersSent` value `hs` (headers are
flushed by the first `res.write`).  Per iteration:
line 172 checks `signal.aborted` and breaks; line 173 awaits
`delay(intervalMs, signal)`; lines 174 and 202 re-check the signal (the
signal cannot have changed since line 172 when the delay completed without
an abort event, because nothing else can run between the timer callback and
the loop continuation); lines 175-176 and 206 build and serialize the item
(a throw here reaches the generic catch branch); line 207 calls
`res.write`; lines 208-215 await `drain` or `close` when the write returned
`false` — a `close` resolution also aborts the signal through the
middleware of lines 71-84, whose listener was registered before the
handler ran. -/
def streamLoop (env : Env) (intervalMs : Nat) :
    Nat → Nat → Bool → Bool → RunResult
  | 0, _, _, _ =>
    -- generator loop condition `i < count` failed: exhaustion, line 217
    loopExit ExitKind.exhausted []
  | r + 1, i, a, hs =>
    if a then
      -- line 172: generator breaks, loop ends, line 217
      loopExit ExitKind.abortBreak []
    else
      match delay intervalMs a (env.closeDuringDelay i) with
      | DelayResult.preAbortError =>
        -- line 161: plain Error, name is not AbortError, generic catch
        faultExit hs [Ev.delayCall i a]
      | DelayResult.abortError =>
        -- lines 164 and 219-222: AbortError swallowed, endStream
        loopExit ExitKind.abortError [Ev.delayCall i a, Ev.delayAborted i]
      | DelayResult.completed =>
        if a then
          -- lines 174 and 202: re-check of the unchanged signal
          loopExit ExitKind.abortBreak [Ev.delayCall i a]
        else if env.serializeFault (i + 1) then
          -- lines 175 and 206: building or stringifying the item throws
          faultExit hs [Ev.delayCall i a]
        else if env.writeOk (i + 1) then
          -- line 207: write accepted, pull the next item
          prepend [i + 1] [Ev.delayCall i a, Ev.writeCall (i + 1) true]
            (streamLoop env intervalMs r (i + 1) a true)
        else if env.drainFirst (i + 1) then
          -- lines 208-215: saturated, drain fires first, resume
          prepend [i + 1]
            [Ev.delayCall i a, Ev.writeCall (i + 1) false, Ev.waitResolved (i + 1) true]
            (streamLoop env intervalMs r (i + 1) a true)
        else
          -- lines 208-215: saturated, close fires first; the middleware
          -- (lines 71-84) aborts the signal in the same close dispatch
          prepend [i + 1]
            [Ev.delayCall i a, Ev.writeCall (i + 1) false, Ev.waitResolved (i + 1) false]
            (streamLoop env intervalMs r (i + 1) true true)

/-- One `/stream` session with production cap `count` and inter-item delay
`intervalMs`, started with an unaborted signal and unsent headers. -/
def runStream (count intervalMs : Nat) (env : Env) : RunResult :=
  streamLoop env intervalMs count 0 false false

/-- The session exactly as the endpoint starts it at line 201:
`produceNdjsonItems(1000, 100, signal)`. -/
def streamEndpoint (env : Env) : RunResult :=
  runStream 1000 100 env

/-- State touched by `endStream` (src/Practical-13.js lines 186-191):
the `ended` flag and the number of `res.end()` executions. -/
structure EndState where
  ended : Bool
  resEndCount : Nat
deriving DecidableEq, Repr

/-- Model of `endStream` (src/Practical-13.js lines 186-191): if `ended` is
already set it returns immediately; otherwise it sets `ended` and runs
`res.end()`.  The `code` parameter mirrors the unused `code = 200` parameter
of the source. -/
def endStream (s : EndState) (code : Nat) : EndState :=
  if s.ended then s
  else { ended := true, resEndCount := s.resEndCount + 1 }

/-- Model of the platform `AbortSignal` used by the middleware at
src/Practical-13.js lines 71-84: the `aborted` flag and the list of
currently registered abort-listener identities. -/
structure Signal where
  aborted : Bool
  listeners : List Nat
deriving DecidableEq, Repr

/-- Model of `AbortController.abort()`: per the platform semantics it is a
no-op on an already-aborted signal; otherwise it flips `aborted` and
dispatches the one-shot abort event to the listeners registered at that
moment.  The second component is the list of listener identities invoked by
this call. -/
def Signal.abortCall (s : Signal) : Signal × List Nat :=
  if s.aborted then (s, [])
  else ({ s with aborted := true }, s.listeners)

/-- Model of signal.addEventListener for the abort event as used by `delay` at
line 166: it registers the listener and — per the platform EventTarget
semantics relied upon by the source — never invokes it at registration
time, even when the signal is already aborted (which is exactly why `delay`
checks `signal.aborted` synchronously at line 161 before registering).  The
second component is the list of listener identities invoked immediately by
the registration. -/
def Signal.addEventListener (s : Signal) (id : Nat) : Signal × List Nat :=
  ({ s with listeners := s.listeners ++ [id] }, [])

/-- Model of signal.removeEventListener for the abort event as used by the
`cleanup` of `delay` at line 165. -/
def Signal.removeEventListener (s : Signal) (id : Nat) : Signal :=
  { s with listeners := s.listeners.erase id }

/-- Scans an event trace for a `res.write` call. -/
def noWriteCall : List Ev → Bool
  | [] => true
  | Ev.writeCall _ _ :: _ => false
  | _ :: rest => noWriteCall rest

/-- Checks that every saturated `res.write` is immediately followed by the
resolution of its backpressure wait, that the write loop resumes only on a
`drain` (resumed) resolution, and that no further `res.write` occurs after a
`close` (abandoned) resolution. -/
def writesGated : List Ev → Bool
  | Ev.writeCall s false :: Ev.waitResolved t b :: rest =>
    t == s && (if b then writesGated rest else noWriteCall rest)
  | Ev.writeCall _ false :: _ => false
  | _ :: rest => writesGated rest
  | [] => true

/-- Checks that no `res.write` occurs after a backpressure wait resolved as
abandoned (by the `close` event). -/
def noWriteAfterAbandon : List Ev → Bool
  | [] => true
  | Ev.waitResolved _ false :: rest => noWriteCall rest
  | _ :: rest => noWriteAfterAbandon rest

/-- Environment of the nominal scenario: the client never disconnects, no
serialization fault, every write accepted. -/
def envNoAbort : Env :=
  { closeDuringDelay := fun _ => false
    serializeFault := fun _ => false
    writeOk := fun _ => true
    drainFirst := fun _ => true }

/-- Environment where the client disconnects while the delay preceding the
third item is pending. -/
def envAbortAt2 : Env :=
  { closeDuringDelay := fun n => n == 2
    serializeFault := fun _ => false
    writeOk := fun _ => true
    drainFirst := fun _ => true }

/-- Environment where serialization of the second item throws (after the
first record line has already been written). -/
def envFaultAt2 : Env :=
  { closeDuringDelay := fun _ => false
    serializeFault := fun n => n == 2
    writeOk := fun _ => true
    drainFirst := fun _ => true }

/-- Environment where building or serializing the very first item throws,
before any byte has been written. -/
def envFaultAt1 : Env :=
  { closeDuringDelay := fun _ => false
    serializeFault := fun n => n == 1
    writeOk := fun _ => true
    drainFirst := fun _ => true }

/-- Helper: the written lines of any partial session starting at generator
index `i` are a contiguous run of sequence numbers starting at `i + 1`. -/
lemma streamLoop_written (env : Env) (ms : Nat) :
    ∀ r i a hs, ∃ k, (streamLoop env ms r i a hs).written = List.range' (i + 1) k := by
  intro r
  induction r with
  | zero => intro i a hs; exact ⟨0, by simp [streamLoop, loopExit]⟩
  | succ r ih =>
    intro i a hs
    cases a with
    | true => exact ⟨0, by simp [streamLoop, loopExit]⟩
    | false =>
      cases hcd : env.closeDuringDelay i with
      | true => exact ⟨0, by simp [streamLoop, delay, loopExit, hcd]⟩
      | false =>
        cases hsf : env.serializeFault (i + 1) with
        | true => exact ⟨0, by simp [streamLoop, delay, faultExit, hcd, hsf]⟩
        | false =>
          cases hok : env.writeOk (i + 1) with
          | true =>
            obtain ⟨k, hk⟩ := ih (i + 1) false true
            exact ⟨k + 1, by
              simp [streamLoop, delay, prepend, hcd, hsf, hok, hk, List.range'_succ]⟩
          | false =>
            cases hdf : env.drainFirst (i + 1) with
            | true =>
              obtain ⟨k, hk⟩ := ih (i + 1) false true
              exact ⟨k + 1, by
                simp [streamLoop, delay, prepend, hcd, hsf, hok, hdf, hk, List.range'_succ]⟩
            | false =>
              obtain ⟨k, hk⟩ := ih (i + 1) true true
              exact ⟨k + 1, by
                simp [streamLoop, delay, prepend, hcd, hsf, hok, hdf, hk, List.range'_succ]⟩

/-- C1: for every session of the `/stream` endpoint — whatever the client
disconnects, backpressure resolutions and faults the environment produces,
hence for any prefix written before the stream terminates by exhaustion,
cancellation or error — the sequence values of the records actually written
form exactly the gapless strictly increasing run 1, 2, ..., k: no record is
written twice and none is skipped mid-sequence. -/
theorem seq_written_contiguous (count ms : Nat) (env : Env) :
    (runStream count ms env).written =
      List.range' 1 (runStream count ms env).written.length := by
  obtain ⟨k, hk⟩ := streamLoop_written env ms count 0 false false
  unfold runStream
  rw [hk, List.length_range']

/-- Helper: if the delay preceding item `j + 1` rejected with an AbortError,
the session wrote exactly the items committed before that delay, exited
through the AbortError branch of the catch block, wrote no problem document,
and ran `endStream`. -/
lemma delayAborted_spec (env : Env) (ms : Nat) :
    ∀ r i a hs j, Ev.delayAborted j ∈ (streamLoop env ms r i a hs).events →
      i ≤ j ∧ (streamLoop env ms r i a hs).written.length = j - i ∧
      (streamLoop env ms r i a hs).exit = ExitKind.abortError ∧
      (streamLoop env ms r i a hs).errorDoc = none ∧
      (streamLoop env ms r i a hs).ended = true ∧
      (streamLoop env ms r i a hs).wireStatus = 200 := by
  intro r
  induction r with
  | zero => intro i a hs j h; simp [streamLoop, loopExit] at h
  | succ r ih =>
    intro i a hs j h
    cases a with
    | true => simp [streamLoop, loopExit] at h
    | false =>
      cases hcd : env.closeDuringDelay i with
      | true =>
        simp only [streamLoop, delay, hcd] at h ⊢
        simp [loopExit] at h ⊢
        omega
      | false =>
        cases hsf : env.serializeFault (i + 1) with
        | true => simp [streamLoop, delay, faultExit, hcd, hsf] at h
        | false =>
          cases hok : env.writeOk (i + 1) with
          | true =>
            simp only [streamLoop, delay, hcd, hsf, hok] at h ⊢
            simp [prepend] at h ⊢
            obtain ⟨h1, h2, h3, h4, h5, h6⟩ := ih (i + 1) false true j h
            refine ⟨by omega, by omega, h3, h4, h5, h6⟩
          | false =>
            cases hdf : env.drainFirst (i + 1) with
            | true =>
              simp only [streamLoop, delay, hcd, hsf, hok, hdf] at h ⊢
              simp [prepend] at h ⊢
              obtain ⟨h1, h2, h3, h4, h5, h6⟩ := ih (i + 1) false true j h
              refine ⟨by omega, by omega, h3, h4, h5, h6⟩
            | false =>
              simp only [streamLoop, delay, hcd, hsf, hok, hdf] at h ⊢
              simp [prepend] at h ⊢
              obtain ⟨h1, h2, h3, h4, h5, h6⟩ := ih (i + 1) true true j h
              refine ⟨by omega, by omega, h3, h4, h5, h6⟩

/-- C2: if the cancellation signal aborts while the source is suspended in
the inter-item delay preceding item `i + 1` (the AbortError rejection of
that delay is in the trace), then no further record is produced or written —
the write count stops at the `i` items committed before the wait — and the
cancellation is treated as silent termination: the session ends through the
AbortError branch, `endStream` closes the response, no problem document is
written and the wire status stays 200. -/
theorem abort_during_delay_silent (count ms : Nat) (env : Env) (i : Nat)
    (h : Ev.delayAborted i ∈ (runStream count ms env).events) :
    (runStream count ms env).written.length = i ∧
    (runStream count ms env).exit = ExitKind.abortError ∧
    (runStream count ms env).errorDoc = none ∧
    (runStream count ms env).ended = true ∧
    (runStream count ms env).wireStatus = 200 := by
  unfold runStream at h ⊢
  obtain ⟨h1, h2, h3, h4, h5, h6⟩ := delayAborted_spec env ms count 0 false false i h
  exact ⟨by omega, h3, h4, h5, h6⟩

/-- Witness for C2: the client closes during the delay preceding the third
item; exactly the two committed records were written and the termination is
silent. -/
theorem abort_during_delay_silent_w :
    (runStream 6 0 envAbortAt2).written.length = 2 ∧
    (runStream 6 0 envAbortAt2).exit = ExitKind.abortError ∧
    (runStream 6 0 envAbortAt2).errorDoc = none ∧
    (runStream 6 0 envAbortAt2).ended = true ∧
    (runStream 6 0 envAbortAt2).wireStatus = 200 :=
  abort_during_delay_silent 6 0 envAbortAt2 2 (by decide)

/-- Helper: every fault exit writes the status-500 problem document onto the
wire with a single `res.end`, and never goes through `endStream`. -/
lemma fault_doc (env : Env) (ms : Nat) :
    ∀ r i a hs, (streamLoop env ms r i a hs).exit = ExitKind.fault →
      (streamLoop env ms r i a hs).errorDoc = some 500 ∧
      (streamLoop env ms r i a hs).resEndCount = 1 ∧
      (streamLoop env ms r i a hs).endStreamCalls = 0 := by
  intro r
  induction r with
  | zero => intro i a hs h; simp [streamLoop, loopExit] at h
  | succ r ih =>
    intro i a hs h
    cases a with
    | true => simp [streamLoop, loopExit] at h
    | false =>
      cases hcd : env.closeDuringDelay i with
      | true => simp [streamLoop, delay, loopExit, hcd] at h
      | false =>
        cases hsf : env.serializeFault (i + 1) with
        | true => simp [streamLoop, delay, faultExit, hcd, hsf]
        | false =>
          cases hok : env.writeOk (i + 1) with
          | true =>
            simp only [streamLoop, delay, hcd, hsf, hok] at h ⊢
            simp [prepend] at h ⊢
            exact ih (i + 1) false true h
          | false =>
            cases hdf : env.drainFirst (i + 1) with
            | true =>
              simp only [streamLoop, delay, hcd, hsf, hok, hdf] at h ⊢
              simp [prepend] at h ⊢
              exact ih (i + 1) false true h
            | false =>
              simp only [streamLoop, delay, hcd, hsf, hok, hdf] at h ⊢
              simp [prepend] at h ⊢
              exact ih (i + 1) true true h

/-- Helper: a fault exit reached after the headers were flushed (either the
frame started with headers sent, or at least one record line was written)
leaves the transmitted status at 200 and the content type at ndjson. -/
lemma fault_sent_status (env : Env) (ms : Nat) :
    ∀ r i a hs, (streamLoop env ms r i a hs).exit = ExitKind.fault →
      (hs = true ∨ (streamLoop env ms r i a hs).written ≠ []) →
      (streamLoop env ms r i a hs).wireStatus = 200 ∧
      (streamLoop env ms r i a hs).wireCType = CType.ndjson := by
  intro r
  induction r with
  | zero => intro i a hs h _; simp [streamLoop, loopExit] at h
  | succ r ih =>
    intro i a hs h hw
    cases a with
    | true => simp [streamLoop, loopExit] at h
    | false =>
      cases hcd : env.closeDuringDelay i with
      | true => simp [streamLoop, delay, loopExit, hcd] at h
      | false =>
        cases hsf : env.serializeFault (i + 1) with
        | true =>
          rcases hw with hw | hw
          · subst hw; simp [streamLoop, delay, faultExit, hcd, hsf]
          · exfalso
            apply hw
            simp [streamLoop, delay, faultExit, hcd, hsf]
        | false =>
          cases hok : env.writeOk (i + 1) with
          | true =>
            simp only [streamLoop, delay, hcd, hsf, hok] at h ⊢
            simp [prepend] at h ⊢
            exact ih (i + 1) false true h (Or.inl rfl)
          | false =>
            cases hdf : env.drainFirst (i + 1) with
            | true =>
              simp only [streamLoop, delay, hcd, hsf, hok, hdf] at h ⊢
              simp [prepend] at h ⊢
              exact ih (i + 1) false true h (Or.inl rfl)
            | false =>
              simp only [streamLoop, delay, hcd, hsf, hok, hdf] at h ⊢
              simp [prepend] at h ⊢
              exact ih (i + 1) true true h (Or.inl rfl)

/-- C3 counterexample: with serialization of item 2 faulting after the first
record line was already written (bytes sent on the transport), the catch
block nevertheless writes the status-500 problem document onto the wire —
`res.writableEnded` is false at line 226, so line 228 appends the document —
contradicting the claim that after the first byte a fault is logged only and
no error document is written onto the wire. -/
theorem post_byte_fault_cex :
    (runStream 5 0 envFaultAt2).written = [1] ∧
    (runStream 5 0 envFaultAt2).errorDoc = some 500 := by decide

/-- C3 as amended: a production or transport fault occurring after at least
one record line was written is logged, and the already-transmitted status
line (200) and content type (ndjson) cannot change; however the structured
problem document built with status 500 is appended to the response body as a
trailing chunk by the single `res.end` call that terminates the connection
(and `endStream` is never invoked on this path). -/
theorem post_byte_fault_appends_doc (count ms : Nat) (env : Env)
    (hf : (runStream count ms env).exit = ExitKind.fault)
    (hw : (runStream count ms env).written ≠ []) :
    (runStream count ms env).errorDoc = some 500 ∧
    (runStream count ms env).wireStatus = 200 ∧
    (runStream count ms env).wireCType = CType.ndjson ∧
    (runStream count ms env).resEndCount = 1 ∧
    (runStream count ms env).endStreamCalls = 0 := by
  unfold runStream at hf hw ⊢
  obtain ⟨h1, h2, h3⟩ := fault_doc env ms count 0 false false hf
  obtain ⟨h4, h5⟩ := fault_sent_status env ms count 0 false false hf (Or.inr hw)
  exact ⟨h1, h4, h5, h2, h3⟩

/-- Witness for the amended C3: serialization of item 2 faults after item 1
was written. -/
theorem post_byte_fault_appends_doc_w :
    (runStream 5 0 envFaultAt2).errorDoc = some 500 ∧
    (runStream 5 0 envFaultAt2).wireStatus = 200 ∧
    (runStream 5 0 envFaultAt2).wireCType = CType.ndjson ∧
    (runStream 5 0 envFaultAt2).resEndCount = 1 ∧
    (runStream 5 0 envFaultAt2).endStreamCalls = 0 :=
  post_byte_fault_appends_doc 5 0 envFaultAt2 (by decide) (by decide)

/-- Helper: a session frame entered with an aborted signal performs no
`res.write` at all. -/
lemma noWriteCall_of_aborted (env : Env) (ms : Nat) (r i : Nat) (hs : Bool) :
    noWriteCall (streamLoop env ms r i true hs).events = true := by
  cases r with
  | zero => simp [streamLoop, loopExit, noWriteCall]
  | succ r => simp [streamLoop, loopExit, noWriteCall]

/-- Helper: the trace of every session satisfies the backpressure gating
discipline. -/
lemma writesGated_loop (env : Env) (ms : Nat) :
    ∀ r i a hs, writesGated (streamLoop env ms r i a hs).events = true := by
  intro r
  induction r with
  | zero => intro i a hs; simp [streamLoop, loopExit, writesGated]
  | succ r ih =>
    intro i a hs
    cases a with
    | true => simp [streamLoop, loopExit, writesGated]
    | false =>
      cases hcd : env.closeDuringDelay i with
      | true => simp [streamLoop, delay, loopExit, hcd, writesGated]
      | false =>
        cases hsf : env.serializeFault (i + 1) with
        | true => simp [streamLoop, delay, faultExit, hcd, hsf, writesGated]
        | false =>
          cases hok : env.writeOk (i + 1) with
          | true =>
            simp only [streamLoop, delay, hcd, hsf, hok]
            simp [prepend, writesGated]
            exact ih (i + 1) false true
          | false =>
            cases hdf : env.drainFirst (i + 1) with
            | true =>
              simp only [streamLoop, delay, hcd, hsf, hok, hdf]
              simp [prepend, writesGated]
              exact ih (i + 1) false true
            | false =>
              simp only [streamLoop, delay, hcd, hsf, hok, hdf]
              simp [prepend, writesGated]
              exact noWriteCall_of_aborted env ms r (i + 1) true

/-- C4: in every session, when a `res.write` reports saturation (returns
false), the very next write-related event is the resolution of its
backpressure wait — no subsequent write call is made until the wait resolves
as resumed, and after an abandoned resolution no write occurs at all; in
particular the write of item n + 1 is never attempted before the outcome of
the write of item n, including any resulting backpressure wait, has been
resolved. -/
theorem backpressure_gates_writes (count ms : Nat) (env : Env) :
    writesGated (runStream count ms env).events = true :=
  writesGated_loop env ms count 0 false false

/-- Helper: no session trace contains a `res.write` after a backpressure
wait resolved by the close event. -/
lemma noWriteAfterAbandon_loop (env : Env) (ms : Nat) :
    ∀ r i a hs, noWriteAfterAbandon (streamLoop env ms r i a hs).events = true := by
  intro r
  induction r with
  | zero => intro i a hs; simp [streamLoop, loopExit, noWriteAfterAbandon]
  | succ r ih =>
    intro i a hs
    cases a with
    | true => simp [streamLoop, loopExit, noWriteAfterAbandon]
    | false =>
      cases hcd : env.closeDuringDelay i with
      | true => simp [streamLoop, delay, loopExit, hcd, noWriteAfterAbandon]
      | false =>
        cases hsf : env.serializeFault (i + 1) with
        | true => simp [streamLoop, delay, faultExit, hcd, hsf, noWriteAfterAbandon]
        | false =>
          cases hok : env.writeOk (i + 1) with
          | true =>
            simp only [streamLoop, delay, hcd, hsf, hok]
            simp [prepend, noWriteAfterAbandon]
            exact ih (i + 1) false true
          | false =>
            cases hdf : env.drainFirst (i + 1) with
            | true =>
              simp only [streamLoop, delay, hcd, hsf, hok, hdf]
              simp [prepend, noWriteAfterAbandon]
              exact ih (i + 1) false true
            | false =>
              simp only [streamLoop, delay, hcd, hsf, hok, hdf]
              simp [prepend, noWriteAfterAbandon]
              exact noWriteCall_of_aborted env ms r (i + 1) true

/-- Helper: every session invokes `endStream` at most once and executes
`res.end` exactly once. -/
lemma endStreamCalls_le (env : Env) (ms : Nat) :
    ∀ r i a hs, (streamLoop env ms r i a hs).endStreamCalls ≤ 1 ∧
      (streamLoop env ms r i a hs).resEndCount = 1 := by
  intro r
  induction r with
  | zero => intro i a hs; simp [streamLoop, loopExit]
  | succ r ih =>
    intro i a hs
    cases a with
    | true => simp [streamLoop, loopExit]
    | false =>
      cases hcd : env.closeDuringDelay i with
      | true => simp [streamLoop, delay, loopExit, hcd]
      | false =>
        cases hsf : env.serializeFault (i + 1) with
        | true => simp [streamLoop, delay, faultExit, hcd, hsf]
        | false =>
          cases hok : env.writeOk (i + 1) with
          | true =>
            simp only [streamLoop, delay, hcd, hsf, hok]
            simp [prepend]
            exact ih (i + 1) false true
          | false =>
            cases hdf : env.drainFirst (i + 1) with
            | true =>
              simp only [streamLoop, delay, hcd, hsf, hok, hdf]
              simp [prepend]
              exact ih (i + 1) false true
            | false =>
              simp only [streamLoop, delay, hcd, hsf, hok, hdf]
              simp [prepend]
              exact ih (i + 1) true true

/-- C5: in every session, after a backpressure wait resolves as abandoned
(the transport reported the connection closed while the writer was suspended
awaiting capacity) no further write is performed, the orchestrator calls
`endStream` at most once, and the transport write side is closed by exactly
one `res.end`. -/
theorem abandoned_terminates_once (count ms : Nat) (env : Env) :
    noWriteAfterAbandon (runStream count ms env).events = true ∧
    (runStream count ms env).endStreamCalls ≤ 1 ∧
    (runStream count ms env).resEndCount = 1 :=
  ⟨noWriteAfterAbandon_loop env ms count 0 false false,
   (endStreamCalls_le env ms count 0 false false).1,
   (endStreamCalls_le env ms count 0 false false).2⟩

/-- Helper: `endStream` leaves an already-ended state untouched under any
sequence of further calls. -/
lemma foldl_endStream_fixed (codes : List Nat) (n : Nat) :
    List.foldl endStream { ended := true, resEndCount := n } codes =
      { ended := true, resEndCount := n } := by
  induction codes with
  | nil => rfl
  | cons c cs ih => simpa [endStream] using ih

/-- C6: `endStream` is idempotent: applied twice with any argument values it
equals a single application, and any non-empty sequence of calls starting
from the fresh state closes the transport write side (runs `res.end`)
exactly once — additional calls after partial writes, errors or normal
completion have no observable effect beyond the first. -/
theorem endStream_idempotent (s : EndState) (c1 c2 c : Nat) (codes : List Nat) :
    endStream (endStream s c1) c2 = endStream s c1 ∧
    List.foldl endStream { ended := false, resEndCount := 0 } (c :: codes) =
      { ended := true, resEndCount := 1 } := by
  constructor
  · cases hs : s.ended
    · simp [endStream, hs]
    · simp [endStream, hs]
  · simp only [List.foldl]
    rw [show endStream { ended := false, resEndCount := 0 } c =
          { ended := true, resEndCount := 1 } from rfl]
    exact foldl_endStream_fixed codes 1

/-- C7 counterexample: registering an abort callback on an already-aborted
signal does not fire it immediately — the platform AbortSignal dispatches
the abort event only at the transition, which is exactly why `delay` checks
`signal.aborted` synchronously at line 161 before registering.  This
refutes the conjunct of the claim asserting that a callback registered
after the signal is already aborted fires immediately. -/
theorem late_listener_never_fires_cex :
    ¬ 7 ∈ (Signal.addEventListener { aborted := true, listeners := [] } 7).2 := by
  decide

/-- C7 as amended: the cancellation signal has exactly two states and
transitions only from active to aborted, exactly once and irreversibly;
abort called again after the first call is a no-op; a callback registered
before the transition fires exactly once, at the moment of the transition;
and a callback registered after the signal is already aborted never fires at
registration time (consumers must check the aborted flag synchronously
instead, as `delay` does at line 161 and the generator at lines 172 and
174). -/
theorem signal_oneshot (s : Signal) (id : Nat)
    (h1 : s.aborted = false) (h2 : s.listeners.count id = 1) :
    s.abortCall.1.aborted = true ∧
    s.abortCall.2.count id = 1 ∧
    Signal.abortCall s.abortCall.1 = (s.abortCall.1, []) ∧
    (∀ (t : Signal) (j : Nat), (t.addEventListener j).2 = []) := by
  refine ⟨?_, ?_, ?_, fun t j => rfl⟩
  · simp [Signal.abortCall, h1]
  · simp [Signal.abortCall, h1, h2]
  · simp [Signal.abortCall, h1]

/-- Witness for the amended C7: an active signal with one registered
listener. -/
theorem signal_oneshot_w :
    (Signal.abortCall { aborted := false, listeners := [3] }).1.aborted = true ∧
    (Signal.abortCall { aborted := false, listeners := [3] }).2.count 3 = 1 ∧
    Signal.abortCall (Signal.abortCall { aborted := false, listeners := [3] }).1 =
      ((Signal.abortCall { aborted := false, listeners := [3] }).1, []) ∧
    (∀ (t : Signal) (j : Nat), (t.addEventListener j).2 = []) :=
  signal_oneshot { aborted := false, listeners := [3] } 3 (by decide) (by decide)

/-- C8: with a production cap of 3 items, zero inter-item delay and a signal
that never aborts, the stream writes exactly the three lines with sequence
values 1, 2, 3 in order and the connection is then closed normally as a
completed stream (generator exhaustion, not cancellation, not failure), with
no problem document and a 200 ndjson response head. -/
theorem three_items_complete :
    (runStream 3 0 envNoAbort).written = [1, 2, 3] ∧
    (runStream 3 0 envNoAbort).exit = ExitKind.exhausted ∧
    (runStream 3 0 envNoAbort).ended = true ∧
    (runStream 3 0 envNoAbort).errorDoc = none ∧
    (runStream 3 0 envNoAbort).wireStatus = 200 ∧
    (runStream 3 0 envNoAbort).wireCType = CType.ndjson := by
  decide

/-- C9: if building or serializing the first record faults — the only way a
production fault can occur before any bytes have been sent — while the
client has not disconnected, the response delivered is a single structured
problem document with transmitted status 500 and problem+json content type,
containing zero record lines, and the connection is closed by one
`res.end`. -/
theorem prefirst_byte_fault_problem (count ms : Nat) (env : Env)
    (hc : 1 ≤ count) (hnd : env.closeDuringDelay 0 = false)
    (hsf : env.serializeFault 1 = true) :
    (runStream count ms env).written = [] ∧
    (runStream count ms env).errorDoc = some 500 ∧
    (runStream count ms env).wireStatus = 500 ∧
    (runStream count ms env).wireCType = CType.problemJson ∧
    (runStream count ms env).exit = ExitKind.fault ∧
    (runStream count ms env).resEndCount = 1 := by
  obtain ⟨r, rfl⟩ : ∃ r, count = r + 1 := ⟨count - 1, by omega⟩
  unfold runStream
  simp [streamLoop, delay, faultExit, hnd, hsf]

/-- Witness for C9: serialization of item 1 faults in a five-item session. -/
theorem prefirst_byte_fault_problem_w :
    (runStream 5 0 envFaultAt1).written = [] ∧
    (runStream 5 0 envFaultAt1).errorDoc = some 500 ∧
    (runStream 5 0 envFaultAt1).wireStatus = 500 ∧
    (runStream 5 0 envFaultAt1).wireCType = CType.problemJson ∧
    (runStream 5 0 envFaultAt1).exit = ExitKind.fault ∧
    (runStream 5 0 envFaultAt1).resEndCount = 1 :=
  prefirst_byte_fault_problem 5 0 envFaultAt1 (by decide) (by decide) (by decide)

/-- Helper: every invocation of `delay` recorded in a session trace was made
with an unaborted signal, because the generator checks `signal.aborted`
synchronously at line 172 immediately before line 173 with no suspension
point in between. -/
lemma delayCall_flag_false (env : Env) (ms : Nat) :
    ∀ r i a hs j b, Ev.delayCall j b ∈ (streamLoop env ms r i a hs).events →
      b = false := by
  intro r
  induction r with
  | zero => intro i a hs j b h; simp [streamLoop, loopExit] at h
  | succ r ih =>
    intro i a hs j b h
    cases a with
    | true => simp [streamLoop, loopExit] at h
    | false =>
      cases hcd : env.closeDuringDelay i with
      | true =>
        simp [streamLoop, delay, loopExit, hcd] at h
        exact h.2
      | false =>
        cases hsf : env.serializeFault (i + 1) with
        | true =>
          simp [streamLoop, delay, faultExit, hcd, hsf] at h
          exact h.2
        | false =>
          cases hok : env.writeOk (i + 1) with
          | true =>
            simp only [streamLoop, delay, hcd, hsf, hok] at h
            simp [prepend] at h
            rcases h with ⟨h1, h2⟩ | h
            · exact h2
            · exact ih (i + 1) false true j b h
          | false =>
            cases hdf : env.drainFirst (i + 1) with
            | true =>
              simp only [streamLoop, delay, hcd, hsf, hok, hdf] at h
              simp [prepend] at h
              rcases h with ⟨h1, h2⟩ | h
              · exact h2
              · exact ih (i + 1) false true j b h
            | false =>
              simp only [streamLoop, delay, hcd, hsf, hok, hdf] at h
              simp [prepend] at h
              rcases h with ⟨h1, h2⟩ | h
              · exact h2
              · exact ih (i + 1) true true j b h

/-- C10: whenever the streaming loop invokes `delay`, the signal is not
already aborted (the generator checks `signal.aborted` synchronously at line
172 immediately before the call), so the synchronous pre-abort rejection
branch of `delay` — the plain Error whose name is not AbortError, which the
catch handler would classify as a genuine fault rather than cancellation —
is unreachable from the streaming loop: its result is never
`preAbortError`. -/
theorem preabort_branch_unreachable (count ms : Nat) (env : Env) (i : Nat) (b : Bool)
    (h : Ev.delayCall i b ∈ (runStream count ms env).events) :
    b = false ∧ delay ms b (env.closeDuringDelay i) ≠ DelayResult.preAbortError := by
  unfold runStream at h
  have hb := delayCall_flag_false env ms count 0 false false i b h
  subst hb
  refine ⟨rfl, ?_⟩
  cases hcd : env.closeDuringDelay i <;> simp [delay, hcd]

/-- Witness for C10: the first delay call of the nominal two-item session. -/
theorem preabort_branch_unreachable_w :
    delay 0 false (envNoAbort.closeDuringDelay 0) ≠ DelayResult.preAbortError :=
  (preabort_branch_unreachable 2 0 envNoAbort 0 false (by decide)).2

end Practical13
